import Mathlib

/-!
Verification of the connectivity / Microsoft-365 notification subsystem of
The-Planning-Bord (backend/src/services/microsoft_service.py and
backend/src/services/offline_service.py), shallowly embedded in Lean.

Modelling conventions:
* instants (`datetime.utcnow()`, token expiry) are `Nat` seconds;
* an HTTP interaction is an oracle passed to the function: `none` models an
  exception / timeout of the request, `some status` (with a payload where the
  code parses one) models a completed response;
* Python truthiness of an optional string (`bool(x)`) is `pyTruthy`:
  `None` and the empty string are falsy, every other string is truthy;
* `str.format` with keyword arguments is modelled by `scanLit`/`renderFmt`
  over the template's character list: `{name}` substitutes the mapping's
  value for `name` and a missing key is a `MissingField`-style error
  (Python raises `KeyError`), mirroring the subset of format syntax the
  three templates use (no escapes, no format specs).
-/

/-! ## Python truthiness of optional strings -/

/-- `bool(x)` for `x : str | None`: `None` and `""` are falsy. -/
def pyTruthy : Option String → Bool
  | none => false
  | some s => decide (s ≠ "")

/-! ## The `str.format` fragment used by the email templates -/

/-- A parsed piece of a format string: literal characters, or a `{name}`
replacement field. -/
inductive Chunk where
  | lit : List Char → Chunk
  | field : String → Chunk
deriving DecidableEq

/-- Prepend a literal character to a chunk list, merging into a leading
literal chunk when there is one. -/
def consLit (c : Char) : List Chunk → List Chunk
  | Chunk.lit s :: cs => Chunk.lit (c :: s) :: cs
  | cs => Chunk.lit [c] :: cs

mutual

/-- Scan a format string outside a replacement field. `'{'` opens a field;
a stray `'}'` is a parse error (not present in any of the templates). -/
def scanLit : List Char → Option (List Chunk)
  | [] => some []
  | c :: rest =>
    if c = '{' then scanFld [] rest
    else if c = '}' then none
    else (scanLit rest).map (consLit c)

/-- Scan the name of a replacement field up to the closing `'}'`;
`acc` holds the name's characters in reverse. -/
def scanFld (acc : List Char) : List Char → Option (List Chunk)
  | [] => none
  | c :: rest =>
    if c = '}' then (scanLit rest).map (fun cs => Chunk.field (String.mk acc.reverse) :: cs)
    else if c = '{' then none
    else scanFld (c :: acc) rest

end

/-- Substitute a field mapping into parsed chunks.  The error value is the
first referenced field with no entry in the mapping, as Python's
`str.format` raises `KeyError` on the first missing keyword. -/
def renderChunks (m : String → Option (List Char)) : List Chunk → Except String (List Char)
  | [] => .ok []
  | Chunk.lit s :: cs => (renderChunks m cs).map (fun out => s ++ out)
  | Chunk.field f :: cs =>
    match m f with
    | none => .error f
    | some v => (renderChunks m cs).map (fun out => v ++ out)

/-- `template.format(**mapping)` on one format string. -/
def renderFmt (t : String) (m : String → Option (List Char)) : Except String (List Char) :=
  match scanLit t.data with
  | none => .error ""
  | some cs => renderChunks m cs

/-- The replacement-field names of a chunk list, in order. -/
def fieldsOf (cs : List Chunk) : List String :=
  cs.filterMap (fun c => match c with | Chunk.field f => some f | Chunk.lit _ => none)

/-- The replacement-field names referenced by a format string. -/
def fmtFields (t : String) : List String :=
  fieldsOf ((scanLit t.data).getD [])

/-- A character list with no brace characters. -/
def braceFree (l : List Char) : Bool :=
  l.all (fun c => !(c = '{' || c = '}'))

/-- Every literal chunk is brace-free. -/
def litsOk (cs : List Chunk) : Bool :=
  cs.all (fun c => match c with | Chunk.lit s => braceFree s | Chunk.field _ => true)

/-- The mapping supplies a brace-free value for every field of the list. -/
def completeFor (m : String → Option (List Char)) (fs : List String) : Bool :=
  fs.all (fun f => match m f with | some v => braceFree v | none => false)

/-- Some field of the list has no entry in the mapping. -/
def missingFor (m : String → Option (List Char)) (fs : List String) : Bool :=
  fs.any (fun f => (m f).isNone)

/-! ## Email templates (`Microsoft365Service.email_templates`) -/

/-- A fixed email template: subject pattern and HTML body pattern. -/
structure EmailTemplate where
  subject : String
  body : String

/-- The `low_stock` entry of `email_templates`. -/
def low_stock_template : EmailTemplate where
  subject := "Low Stock Alert - {product_name}"
  body := "
                <html>
                <body>
                    <h2>Low Stock Alert</h2>
                    <p>The following product is running low on stock:</p>
                    <ul>
                        <li><strong>Product:</strong> {product_name}</li>
                        <li><strong>SKU:</strong> {sku}</li>
                        <li><strong>Current Quantity:</strong> {current_quantity}</li>
                        <li><strong>Minimum Quantity:</strong> {minimum_quantity}</li>
                        <li><strong>Reorder Quantity:</strong> {reorder_quantity}</li>
                    </ul>
                    <p>Please consider restocking this item.</p>
                    <p>Best regards,<br>The Planning Bord System</p>
                </body>
                </html>
                "

/-- The `payment_reminder` entry of `email_templates`. -/
def payment_reminder_template : EmailTemplate where
  subject := "Payment Reminder - Invoice {invoice_number}"
  body := "
                <html>
                <body>
                    <h2>Payment Reminder</h2>
                    <p>This is a reminder for the following payment:</p>
                    <ul>
                        <li><strong>Invoice Number:</strong> {invoice_number}</li>
                        <li><strong>Amount:</strong> ${amount}</li>
                        <li><strong>Due Date:</strong> {due_date}</li>
                        <li><strong>Customer:</strong> {customer_name}</li>
                    </ul>
                    <p>Please process this payment at your earliest convenience.</p>
                    <p>Best regards,<br>The Planning Bord System</p>
                </body>
                </html>
                "

/-- The `task_assignment` entry of `email_templates`. -/
def task_assignment_template : EmailTemplate where
  subject := "New Task Assignment - {task_title}"
  body := "
                <html>
                <body>
                    <h2>New Task Assignment</h2>
                    <p>You have been assigned a new task:</p>
                    <ul>
                        <li><strong>Task:</strong> {task_title}</li>
                        <li><strong>Description:</strong> {task_description}</li>
                        <li><strong>Due Date:</strong> {due_date}</li>
                        <li><strong>Priority:</strong> {priority}</li>
                    </ul>
                    <p>Please complete this task by the due date.</p>
                    <p>Best regards,<br>The Planning Bord System</p>
                </body>
                </html>
                "

/-- The replacement fields a template's rendering requires: those of its
subject followed by those of its body. -/
def templateFields (tpl : EmailTemplate) : List String :=
  fmtFields tpl.subject ++ fmtFields tpl.body

/-! ## Token lifecycle (`Microsoft365Service`) -/

/-- The mutable token fields of `Microsoft365Service`:
`access_token`, `refresh_token`, `token_expires_at`. -/
structure TokenState where
  access_token : Option String
  refresh_token : Option String
  token_expires_at : Option Nat
deriving DecidableEq

/-- The parsed JSON body of a token-endpoint response; each field may be
absent from the response. -/
structure TokenPayload where
  access_token : Option String
  refresh_token : Option String
  expires_in : Option Nat
deriving DecidableEq

/-- `is_authenticated`:
`bool(self.access_token and self.token_expires_at and datetime.utcnow() < self.token_expires_at)`.
A present `datetime` is always truthy, so the middle conjunct is the
presence of `token_expires_at`; the string `access_token` is truthy iff
non-`None` and non-empty.  A pure function of the token state and the
current instant: it performs no I/O. -/
def is_authenticated (s : TokenState) (now : Nat) : Bool :=
  pyTruthy s.access_token &&
    (match s.token_expires_at with
     | none => false
     | some e => decide (now < e))

/-- `exchange_code_for_token`: POSTs the authorization code to the token
endpoint.  `resp = none` models an exception (network failure, or a body
that fails to parse); `some (status, td)` a completed response.  On 200 it
stores `token_data.get("access_token")`, `token_data.get("refresh_token")`
(so `none` when the response omits it) and
`now + token_data.get("expires_in", 3600)`; otherwise it returns `false`
with the state untouched. -/
def exchange_code_for_token (s : TokenState) (now : Nat)
    (resp : Option (Nat × TokenPayload)) : Bool × TokenState :=
  match resp with
  | none => (false, s)
  | some (status, td) =>
    if status = 200 then
      (true,
       { access_token := td.access_token
         refresh_token := td.refresh_token
         token_expires_at := some (now + td.expires_in.getD 3600) })
    else (false, s)

/-- `refresh_access_token`: returns `false` at once when no (truthy)
refresh token is held; otherwise as `exchange_code_for_token` except that
`token_data.get("refresh_token", self.refresh_token)` keeps the stored
refresh token when the response omits the field. -/
def refresh_access_token (s : TokenState) (now : Nat)
    (resp : Option (Nat × TokenPayload)) : Bool × TokenState :=
  if pyTruthy s.refresh_token = false then (false, s)
  else
    match resp with
    | none => (false, s)
    | some (status, td) =>
      if status = 200 then
        (true,
         { access_token := td.access_token
           refresh_token := match td.refresh_token with
             | some r => some r
             | none => s.refresh_token
           token_expires_at := some (now + td.expires_in.getD 3600) })
      else (false, s)

/-- `send_email`: returns `false` without issuing any request when
`is_authenticated` is false; otherwise issues one POST to `/me/sendMail`
and succeeds exactly on HTTP 202.  The second component counts the network
requests attempted, so the unauthenticated early return is observably
I/O-free.  All failure outcomes are values, never exceptions. -/
def send_email (s : TokenState) (now : Nat) (resp : Option Nat) : Bool × Nat :=
  if is_authenticated s now = false then (false, 0)
  else
    match resp with
    | none => (false, 1)
    | some status => (decide (status = 202), 1)

/-! ## Connectivity and feature gating (`OfflineService`) -/

/-- The environment-variable configuration the offline service consults at
call time: `MS_CLIENT_ID` and `SMTP_SERVER`. -/
structure OfflineEnv where
  ms_client_id : Option String
  smtp_server : Option String
deriving DecidableEq

/-- A pending sync operation: a dict with a `type` key, a data payload
(abstracted to a `Nat`), and the `timestamp`/`status` keys stamped by
`add_pending_operation`.  Python removes operations from the queue by dict
equality, modelled by the derived decidable equality. -/
structure PendingOp where
  opType : String
  data : Nat
  timestamp : Nat
  status : String
deriving DecidableEq

/-- The mutable fields of `OfflineService`. -/
structure OfflineState where
  is_online : Bool
  offline_mode : Bool
  cloud_api_url : String
  last_sync : Option Nat
  pending_sync_operations : List PendingOp
deriving DecidableEq

/-- `check_connectivity`: GETs `https://www.microsoft.com` with a 5-second
timeout.  `resp = none` models an exception or timeout; the result is
`status_code == 200` and is also written to `self.is_online`. -/
def check_connectivity (s : OfflineState) (resp : Option Nat) : Bool × OfflineState :=
  let online := match resp with
    | some code => decide (code = 200)
    | none => false
  (online, { s with is_online := online })

/-- `is_microsoft_365_available`:
`self.is_online and not self.offline_mode and bool(os.getenv("MS_CLIENT_ID"))`. -/
def is_microsoft_365_available (s : OfflineState) (env : OfflineEnv) : Bool :=
  s.is_online && !s.offline_mode && pyTruthy env.ms_client_id

/-- `is_cloud_sync_available`:
`self.is_online and not self.offline_mode and bool(self.cloud_api_url)`. -/
def is_cloud_sync_available (s : OfflineState) : Bool :=
  s.is_online && !s.offline_mode && decide (s.cloud_api_url ≠ "")

/-- `can_send_emails`:
`self.is_microsoft_365_available() or bool(os.getenv("SMTP_SERVER"))`. -/
def can_send_emails (s : OfflineState) (env : OfflineEnv) : Bool :=
  is_microsoft_365_available s env || pyTruthy env.smtp_server

/-- The dict returned by `get_status`. -/
structure StatusSnapshot where
  online : Bool
  offline_mode : Bool
  last_sync : Option Nat
  pending_operations : Nat
  microsoft_365_available : Bool
  cloud_sync_available : Bool
deriving DecidableEq

/-- `get_status`: a read-only snapshot; `pending_operations` is
`len(self.pending_sync_operations)`. -/
def get_status (s : OfflineState) (env : OfflineEnv) : StatusSnapshot where
  online := s.is_online
  offline_mode := s.offline_mode
  last_sync := s.last_sync
  pending_operations := s.pending_sync_operations.length
  microsoft_365_available := is_microsoft_365_available s env
  cloud_sync_available := is_cloud_sync_available s

/-- The stamping `add_pending_operation` performs before appending:
`operation["timestamp"] = datetime.utcnow(); operation["status"] = "pending"`. -/
def stampOp (op : PendingOp) (now : Nat) : PendingOp :=
  { op with timestamp := now, status := "pending" }

/-- `add_pending_operation`: stamps the operation and appends it to
`self.pending_sync_operations`. -/
def add_pending_operation (s : OfflineState) (op : PendingOp) (now : Nat) : OfflineState :=
  { s with pending_sync_operations := s.pending_sync_operations ++ [stampOp op now] }

/-- The operation types `_sync_operation` dispatches on; any other type
falls through to `return False`. -/
def syncableType (t : String) : Bool :=
  t = "inventory_update" || t = "employee_add" || t = "payment_add"

/-- `_sync_operation` under an HTTP oracle `httpOk`: `httpOk op` tells
whether the type-specific POST for `op` returned HTTP 200 (`false` also
covers an exception in the POST).  An operation of an unknown type never
syncs. -/
def sync_operation (httpOk : PendingOp → Bool) (op : PendingOp) : Bool :=
  if syncableType op.opType then httpOk op else false

/-- Python's `list.remove`: drop the first element equal to `a`. -/
def removeFirst : List PendingOp → PendingOp → List PendingOp
  | [], _ => []
  | b :: t, a => if b = a then t else b :: removeFirst t a

/-- The `for operation in self.pending_sync_operations[:]` loop of
`sync_with_cloud`: iterate over a copy (first argument), removing each
successfully synced operation from the live queue (second argument). -/
def syncLoop (httpOk : PendingOp → Bool) : List PendingOp → List PendingOp → List PendingOp
  | [], q => q
  | op :: rest, q =>
    syncLoop httpOk rest (if sync_operation httpOk op then removeFirst q op else q)

/-- `sync_with_cloud`: a no-op when cloud sync is unavailable; otherwise
drains the pending queue as `syncLoop` and records `last_sync := now`.
(The subsequent `_sync_inventory_data` pass catches its own exceptions and
does not touch the queue.) -/
def sync_with_cloud (s : OfflineState) (httpOk : PendingOp → Bool) (now : Nat) : OfflineState :=
  if is_cloud_sync_available s = false then s
  else
    { s with
      pending_sync_operations :=
        syncLoop httpOk s.pending_sync_operations s.pending_sync_operations
      last_sync := some now }

/-- The dict returned by `get_available_features`. -/
structure Features where
  inventory_management : Bool
  employee_management : Bool
  payment_tracking : Bool
  email_notifications : Bool
  microsoft_365_integration : Bool
  cloud_sync : Bool
  automatic_restock : Bool
  online_reports : Bool
  backup_to_cloud : Bool
deriving DecidableEq

/-- `get_available_features`. -/
def get_available_features (s : OfflineState) (env : OfflineEnv) : Features where
  inventory_management := true
  employee_management := true
  payment_tracking := true
  email_notifications := can_send_emails s env
  microsoft_365_integration := is_microsoft_365_available s env
  cloud_sync := is_cloud_sync_available s
  automatic_restock := can_send_emails s env
  online_reports := s.is_online
  backup_to_cloud := is_cloud_sync_available s

/-! ## Lemmas about the format-string renderer -/

lemma braceFree_append {a b : List Char} (ha : braceFree a = true)
    (hb : braceFree b = true) : braceFree (a ++ b) = true := by
  unfold braceFree at *
  rw [List.all_append, ha, hb]
  rfl

lemma renderChunks_ok (m : String → Option (List Char)) :
    ∀ cs, litsOk cs = true →
    (∀ f ∈ fieldsOf cs, ∃ v, m f = some v ∧ braceFree v = true) →
    ∃ out, renderChunks m cs = .ok out ∧ braceFree out = true := by
  intro cs
  induction cs with
  | nil => exact fun _ _ => ⟨[], rfl, rfl⟩
  | cons c cs ih =>
    cases c with
    | lit s =>
      intro hl hf
      simp only [litsOk, List.all_cons, Bool.and_eq_true] at hl
      simp only [fieldsOf, List.filterMap_cons] at hf
      obtain ⟨out, hout, hbf⟩ := ih hl.2 hf
      exact ⟨s ++ out, by simp [renderChunks, hout, Except.map],
             braceFree_append hl.1 hbf⟩
    | field f =>
      intro hl hf
      simp only [litsOk, List.all_cons, Bool.and_eq_true] at hl
      have hfields : fieldsOf (Chunk.field f :: cs) = f :: fieldsOf cs := by
        simp [fieldsOf, List.filterMap_cons]
      obtain ⟨v, hv, hbv⟩ := hf f (by rw [hfields]; exact List.mem_cons_self f _)
      obtain ⟨out, hout, hbf⟩ := ih hl.2 (fun g hg => hf g (by rw [hfields]; exact List.mem_cons_of_mem f hg))
      exact ⟨v ++ out, by simp [renderChunks, hv, hout, Except.map],
             braceFree_append hbv hbf⟩

lemma renderChunks_missing (m : String → Option (List Char)) :
    ∀ cs, ∀ f ∈ fieldsOf cs, m f = none →
    ∃ g, renderChunks m cs = .error g ∧ m g = none := by
  intro cs
  induction cs with
  | nil => intro f hf; simp [fieldsOf] at hf
  | cons c cs ih =>
    cases c with
    | lit s =>
      intro f hf hm
      simp only [fieldsOf, List.filterMap_cons] at hf
      obtain ⟨g, hg, hmg⟩ := ih f hf hm
      exact ⟨g, by simp [renderChunks, hg, Except.map], hmg⟩
    | field f0 =>
      intro f hf hm
      have hfields : fieldsOf (Chunk.field f0 :: cs) = f0 :: fieldsOf cs := by
        simp [fieldsOf, List.filterMap_cons]
      rw [hfields] at hf
      cases hm0 : m f0 with
      | none => exact ⟨f0, by simp [renderChunks, hm0], hm0⟩
      | some v =>
        have hftail : f ∈ fieldsOf cs := by
          rcases List.mem_cons.mp hf with he | ht
          · rw [he] at hm; rw [hm] at hm0; exact absurd hm0 (by simp)
          · exact ht
        obtain ⟨g, hg, hmg⟩ := ih f hftail hm
        exact ⟨g, by simp [renderChunks, hm0, hg, Except.map], hmg⟩

lemma renderFmt_ok (t : String) (m : String → Option (List Char)) (cs : List Chunk)
    (hp : scanLit t.data = some cs) (hl : litsOk cs = true)
    (hc : ∀ f ∈ fmtFields t, ∃ v, m f = some v ∧ braceFree v = true) :
    ∃ out, renderFmt t m = .ok out ∧ braceFree out = true := by
  have hc' : ∀ f ∈ fieldsOf cs, ∃ v, m f = some v ∧ braceFree v = true := by
    intro f hf
    exact hc f (by simp [fmtFields, hp]; exact hf)
  obtain ⟨out, hout, hbf⟩ := renderChunks_ok m cs hl hc'
  exact ⟨out, by simp [renderFmt, hp, hout], hbf⟩

lemma renderFmt_missing (t : String) (m : String → Option (List Char)) (cs : List Chunk)
    (hp : scanLit t.data = some cs) (f : String) (hf : f ∈ fmtFields t)
    (hm : m f = none) :
    ∃ g, renderFmt t m = .error g ∧ m g = none := by
  have hf' : f ∈ fieldsOf cs := by simpa [fmtFields, hp] using hf
  obtain ⟨g, hg, hmg⟩ := renderChunks_missing m cs f hf' hm
  exact ⟨g, by simp [renderFmt, hp, hg], hmg⟩

lemma completeFor_spec {m : String → Option (List Char)} {fs : List String}
    (h : completeFor m fs = true) :
    ∀ f ∈ fs, ∃ v, m f = some v ∧ braceFree v = true := by
  intro f hf
  unfold completeFor at h
  rw [List.all_eq_true] at h
  have hthis := h f hf
  cases hm : m f with
  | none => rw [hm] at hthis; simp at hthis
  | some v => exact ⟨v, rfl, by rw [hm] at hthis; exact hthis⟩

lemma missingFor_spec {m : String → Option (List Char)} {fs : List String}
    (h : missingFor m fs = true) : ∃ f, f ∈ fs ∧ m f = none := by
  unfold missingFor at h
  rw [List.any_eq_true] at h
  obtain ⟨f, hf, hn⟩ := h
  exact ⟨f, hf, Option.isNone_iff_eq_none.mp hn⟩

/-! ## Lemmas about the sync loop -/

lemma syncLoop_cons_keep (httpOk : PendingOp → Bool) (a : PendingOp)
    (ha : sync_operation httpOk a = false) :
    ∀ c q, syncLoop httpOk c (a :: q) = a :: syncLoop httpOk c q := by
  intro c
  induction c with
  | nil => intro q; rfl
  | cons b rest ih =>
    intro q
    by_cases hb : sync_operation httpOk b = true
    · have hab : ¬(a = b) := by
        intro he
        rw [he, hb] at ha
        simp at ha
      have hrm : removeFirst (a :: q) b = a :: removeFirst q b := by
        simp [removeFirst, hab]
      rw [show syncLoop httpOk (b :: rest) (a :: q)
            = syncLoop httpOk rest (removeFirst (a :: q) b) from by simp [syncLoop, hb]]
      rw [show syncLoop httpOk (b :: rest) q
            = syncLoop httpOk rest (removeFirst q b) from by simp [syncLoop, hb]]
      rw [hrm]
      exact ih (removeFirst q b)
    · have hb' : sync_operation httpOk b = false := by
        cases hx : sync_operation httpOk b
        · rfl
        · exact absurd hx hb
      rw [show syncLoop httpOk (b :: rest) (a :: q)
            = syncLoop httpOk rest (a :: q) from by simp [syncLoop, hb']]
      rw [show syncLoop httpOk (b :: rest) q
            = syncLoop httpOk rest q from by simp [syncLoop, hb']]
      exact ih q

lemma syncLoop_self (httpOk : PendingOp → Bool) :
    ∀ q, syncLoop httpOk q q = q.filter (fun op => !(sync_operation httpOk op)) := by
  intro q
  induction q with
  | nil => rfl
  | cons a q ih =>
    by_cases ha : sync_operation httpOk a = true
    · have h1 : removeFirst (a :: q) a = q := by simp [removeFirst]
      rw [show syncLoop httpOk (a :: q) (a :: q)
            = syncLoop httpOk q (removeFirst (a :: q) a) from by simp [syncLoop, ha]]
      rw [h1, ih]
      simp [List.filter_cons, ha]
    · have ha' : sync_operation httpOk a = false := by
        cases hx : sync_operation httpOk a
        · rfl
        · exact absurd hx ha
      rw [show syncLoop httpOk (a :: q) (a :: q)
            = syncLoop httpOk q (a :: q) from by simp [syncLoop, ha']]
      rw [syncLoop_cons_keep httpOk a ha' q q, ih]
      simp [List.filter_cons, ha']

/-! ## Concrete fixtures used by counterexamples and witnesses -/

/-- A pending operation of a syncable type. -/
def opInv0 : PendingOp := ⟨"inventory_update", 1, 0, "pending"⟩

/-- A pending operation of a type `_sync_operation` does not dispatch on. -/
def opNote0 : PendingOp := ⟨"restock_notification", 2, 0, "pending"⟩

/-- An operation to be added by `add_pending_operation`. -/
def opNew5 : PendingOp := ⟨"employee_add", 3, 0, ""⟩

/-- An HTTP oracle under which every sync POST returns 200. -/
def httpOkAll : PendingOp → Bool := fun _ => true

/-- Online, cloud-configured state with a two-element pending queue. -/
def sCloud0 : OfflineState := ⟨true, false, "https://cloud.example", none, [opInv0, opNote0]⟩

/-- Online, cloud-configured state with one syncable pending operation. -/
def sPrior5 : OfflineState := ⟨true, false, "https://cloud.example", none, [opInv0]⟩

/-- Online, cloud-configured state with an empty pending queue. -/
def sEmpty5 : OfflineState := ⟨true, false, "https://cloud.example", none, []⟩

/-- No Microsoft credentials, no SMTP server. -/
def env0 : OfflineEnv := ⟨none, none⟩

/-- Both Microsoft credentials and an SMTP server configured. -/
def env8 : OfflineEnv := ⟨some "client-id", some "smtp.example"⟩

/-- Online state with `offline_mode = true` and a cloud URL configured. -/
def s8 : OfflineState := ⟨true, true, "https://cloud.example", none, []⟩

/-! ## C1 — `is_authenticated` -/

/-- C1 (counterexample): the claim says `is_authenticated` is true whenever
`access_token` is non-null, `token_expires_at` is non-null and
`now < expires_at`; but at the reachable state whose access token is the
empty string (written back by `save_tokens` / reread by `load_tokens`) the
code's truthiness test makes it false although `some "" ≠ none` and
`0 < 10`. -/
theorem is_authenticated_nonnull_claim_cex :
    (some "" : Option String) ≠ none ∧ (0 : Nat) < 10 ∧
    is_authenticated ⟨some "", none, some 10⟩ 0 = false := by
  decide

/-- C1 (amended): `is_authenticated s now = true` iff the access token is
non-null *and non-empty*, the expiry is non-null, and `now < expires_at`;
in particular at `now = expires_at` it is false.  The function is a pure
function of the token state and the instant, so it performs no I/O. -/
theorem is_authenticated_truthy_iff (s : TokenState) (now : Nat) :
    (is_authenticated s now = true ↔
      (∃ t, s.access_token = some t ∧ t ≠ "") ∧
      (∃ e, s.token_expires_at = some e ∧ now < e))
    ∧ (∀ e, s.token_expires_at = some e → is_authenticated s e = false) := by
  constructor
  · cases ht : s.access_token with
    | none => simp [is_authenticated, pyTruthy, ht]
    | some t =>
      cases he : s.token_expires_at with
      | none => simp [is_authenticated, pyTruthy, ht, he]
      | some e => simp [is_authenticated, pyTruthy, ht, he]
  · intro e he
    simp [is_authenticated, he]

/-- C1 witness: a non-empty token before expiry is authenticated; exactly
at expiry it is not. -/
theorem is_authenticated_truthy_iff_witness :
    is_authenticated ⟨some "tok", none, some 10⟩ 3 = true ∧
    is_authenticated ⟨some "tok", none, some 10⟩ 10 = false :=
  ⟨(is_authenticated_truthy_iff ⟨some "tok", none, some 10⟩ 3).1.mpr
      ⟨⟨"tok", rfl, by decide⟩, ⟨10, rfl, by decide⟩⟩,
   (is_authenticated_truthy_iff ⟨some "tok", none, some 10⟩ 10).2 10 rfl⟩

/-! ## C2 — offline mode gates Microsoft 365 -/

/-- C2: whenever `offline_mode` is true, the `microsoft_365_integration`
entry of `get_available_features` is false, for every `is_online` value
and every credential configuration. -/
theorem offline_mode_disables_microsoft_365 (s : OfflineState) (env : OfflineEnv)
    (h : s.offline_mode = true) :
    (get_available_features s env).microsoft_365_integration = false := by
  simp [get_available_features, is_microsoft_365_available, h]

/-- C2 witness: even online and with a client id configured, offline mode
turns the Microsoft-365 feature off. -/
theorem offline_mode_disables_microsoft_365_witness :
    (get_available_features s8 env8).microsoft_365_integration = false :=
  offline_mode_disables_microsoft_365 s8 env8 rfl

/-! ## C3 — failed code exchange preserves token state -/

/-- C3: `exchange_code_for_token` on an exception (`resp = none`) or any
non-200 status returns `false` and leaves `access_token`, `refresh_token`
and `token_expires_at` exactly as they were. -/
theorem exchange_code_failure_preserves_tokens (s : TokenState) (now : Nat)
    (resp : Option (Nat × TokenPayload))
    (h : resp = none ∨ ∃ st td, resp = some (st, td) ∧ st ≠ 200) :
    exchange_code_for_token s now resp = (false, s) := by
  rcases h with h | ⟨st, td, h, hst⟩
  · rw [h]; rfl
  · rw [h]; simp [exchange_code_for_token, hst]

/-- C3 witness: a simulated HTTP 400 leaves a concrete token state
untouched and yields `false`. -/
theorem exchange_code_failure_preserves_tokens_witness :
    exchange_code_for_token ⟨some "old", some "r", some 99⟩ 5
        (some (400, ⟨some "new", some "nr", some 60⟩))
      = (false, ⟨some "old", some "r", some 99⟩) :=
  exchange_code_failure_preserves_tokens ⟨some "old", some "r", some 99⟩ 5
    (some (400, ⟨some "new", some "nr", some 60⟩))
    (Or.inr ⟨400, ⟨some "new", some "nr", some 60⟩, rfl, by decide⟩)

/-! ## C5 — pending-operation count across add and sync -/

/-- C5 (counterexample): the claim says the pending count returns to its
prior value after a sync in which the added operation's sync succeeds; but
when another queued operation's sync also succeeds, the count drops below
the prior value: here prior = 1, after add = 2, after a fully successful
sync = 0, not 1. -/
theorem pending_count_claim_cex :
    (get_status sPrior5 env0).pending_operations = 1
    ∧ (get_status (add_pending_operation sPrior5 opNew5 5) env0).pending_operations = 2
    ∧ is_cloud_sync_available (add_pending_operation sPrior5 opNew5 5) = true
    ∧ sync_operation httpOkAll (stampOp opNew5 5) = true
    ∧ (get_status (sync_with_cloud (add_pending_operation sPrior5 opNew5 5)
          httpOkAll 6) env0).pending_operations = 0 := by
  decide

/-- C5 (amended): `add_pending_operation` followed by `get_status` always
shows a pending count one greater than before; and after a
`sync_with_cloud` in which the added operation's sync succeeds, the count
returns to its prior value *provided no previously queued operation's sync
succeeds in the same cycle* (each operation is removed exactly when its
own sync succeeds). -/
theorem pending_count_add_sync_restore (s : OfflineState) (env : OfflineEnv)
    (httpOk : PendingOp → Bool) (op : PendingOp) (now1 now2 : Nat) :
    (get_status (add_pending_operation s op now1) env).pending_operations
        = (get_status s env).pending_operations + 1
    ∧ (is_cloud_sync_available (add_pending_operation s op now1) = true →
       sync_operation httpOk (stampOp op now1) = true →
       (∀ p ∈ s.pending_sync_operations, sync_operation httpOk p = false) →
       (get_status (sync_with_cloud (add_pending_operation s op now1) httpOk now2)
            env).pending_operations
          = (get_status s env).pending_operations) := by
  constructor
  · simp [get_status, add_pending_operation]
  · intro havail hsucc hrest
    have hcond : ¬(is_cloud_sync_available (add_pending_operation s op now1) = false) := by
      simp [havail]
    have hq : (sync_with_cloud (add_pending_operation s op now1) httpOk now2).pending_sync_operations
        = (s.pending_sync_operations ++ [stampOp op now1]).filter
            (fun p => !(sync_operation httpOk p)) := by
      unfold sync_with_cloud
      rw [if_neg hcond]
      simp [add_pending_operation, syncLoop_self]
    have h1 : s.pending_sync_operations.filter (fun p => !(sync_operation httpOk p))
        = s.pending_sync_operations :=
      List.filter_eq_self.mpr (fun p hp => by simp [hrest p hp])
    have h2 : List.filter (fun p => !(sync_operation httpOk p)) [stampOp op now1] = [] := by
      simp [List.filter_cons, hsucc]
    simp only [get_status]
    rw [hq, List.filter_append, h1, h2, List.append_nil]

/-- C5 witness: from an empty queue, add then a successful sync restores
the count to zero. -/
theorem pending_count_add_sync_restore_witness :
    (get_status (sync_with_cloud (add_pending_operation sEmpty5 opNew5 5) httpOkAll 6)
        env0).pending_operations
      = (get_status sEmpty5 env0).pending_operations :=
  (pending_count_add_sync_restore sEmpty5 env0 httpOkAll opNew5 5 6).2
    (by decide) (by decide) (by intro p hp; simp [sEmpty5] at hp)

/-! ## C6 — connectivity probe -/

/-- C6: `check_connectivity` returns true only on a completed response
with a 200-class status (in fact exactly 200); every exception/timeout
(`resp = none`) and every non-200 status yields false; and `is_online` is
always updated to the returned value. -/
theorem check_connectivity_success_iff_200 (s : OfflineState) (resp : Option Nat) :
    ((check_connectivity s resp).1 = true → ∃ c, resp = some c ∧ 200 ≤ c ∧ c < 300)
    ∧ (∀ c, resp = some c → c ≠ 200 → (check_connectivity s resp).1 = false)
    ∧ (resp = none → (check_connectivity s resp).1 = false)
    ∧ (check_connectivity s resp).2.is_online = (check_connectivity s resp).1 := by
  refine ⟨?_, ?_, ?_, rfl⟩
  · intro h
    cases resp with
    | none => simp [check_connectivity] at h
    | some code =>
      simp only [check_connectivity, decide_eq_true_eq] at h
      exact ⟨code, rfl, by omega, by omega⟩
  · intro c hc hne
    rw [hc]
    simp [check_connectivity, hne]
  · intro h
    rw [h]
    rfl

/-- C6 witness: a 503 response yields false. -/
theorem check_connectivity_success_iff_200_witness :
    (check_connectivity sEmpty5 (some 503)).1 = false :=
  (check_connectivity_success_iff_200 sEmpty5 (some 503)).2.1 503 rfl (by decide)

/-! ## C7 — email sending gate and accepted status -/

/-- C7: unauthenticated, `send_email` returns false having attempted no
network request (request count 0); authenticated, it attempts exactly one
request and reports success iff the provider answers HTTP 202 — any other
status or a network failure yields `false` as a value, never an
exception. -/
theorem send_email_requires_auth_and_202 (s : TokenState) (now : Nat) (resp : Option Nat) :
    (is_authenticated s now = false → send_email s now resp = (false, 0))
    ∧ (is_authenticated s now = true →
        (send_email s now resp).2 = 1 ∧
        ((send_email s now resp).1 = true ↔ resp = some 202)) := by
  constructor
  · intro h
    simp [send_email, h]
  · intro h
    cases resp with
    | none => simp [send_email, h]
    | some st => simp [send_email, h]

/-- C7 witness: an expired-token state sends nothing; an authenticated
state succeeds exactly on 202. -/
theorem send_email_requires_auth_and_202_witness :
    send_email ⟨some "tok", none, some 10⟩ 10 (some 202) = (false, 0) ∧
    (send_email ⟨some "tok", none, some 10⟩ 3 (some 202)).1 = true :=
  ⟨(send_email_requires_auth_and_202 ⟨some "tok", none, some 10⟩ 10 (some 202)).1 (by decide),
   ((send_email_requires_auth_and_202 ⟨some "tok", none, some 10⟩ 3 (some 202)).2
      (by decide)).2.mpr rfl⟩

/-! ## C8 — offline mode and the feature map -/

/-- C8 (counterexample): with `offline_mode = true` but an SMTP server
configured and `is_online = true`, three of the six cloud-dependent
entries are still true: `email_notifications` and `automatic_restock`
(via the SMTP fallback in `can_send_emails`) and `online_reports` (which
reads `is_online` alone). -/
theorem offline_mode_features_claim_cex :
    s8.offline_mode = true
    ∧ (get_available_features s8 env8).email_notifications = true
    ∧ (get_available_features s8 env8).automatic_restock = true
    ∧ (get_available_features s8 env8).online_reports = true := by
  decide

/-- C8 (amended): with `offline_mode = true`, the entries derived from
`is_microsoft_365_available` / `is_cloud_sync_available`
(`microsoft_365_integration`, `cloud_sync`, `backup_to_cloud`) are false
regardless of connectivity and configuration; but `email_notifications`
and `automatic_restock` equal the SMTP-server truthiness, and
`online_reports` equals `is_online` — these three are not gated by
offline mode. -/
theorem offline_mode_feature_gating (s : OfflineState) (env : OfflineEnv)
    (h : s.offline_mode = true) :
    (get_available_features s env).microsoft_365_integration = false
    ∧ (get_available_features s env).cloud_sync = false
    ∧ (get_available_features s env).backup_to_cloud = false
    ∧ (get_available_features s env).email_notifications = pyTruthy env.smtp_server
    ∧ (get_available_features s env).automatic_restock = pyTruthy env.smtp_server
    ∧ (get_available_features s env).online_reports = s.is_online := by
  simp [get_available_features, is_microsoft_365_available, is_cloud_sync_available,
    can_send_emails, h]

/-- C8 witness: the strictly-gated entries at a concrete offline state. -/
theorem offline_mode_feature_gating_witness :
    (get_available_features s8 env8).cloud_sync = false :=
  (offline_mode_feature_gating s8 env8 rfl).2.1

/-! ## C9 — refresh keeps, exchange drops, the refresh token -/

/-- C9: on an HTTP 200 token response whose body omits `refresh_token`,
`refresh_access_token` keeps the stored refresh token
(`token_data.get("refresh_token", self.refresh_token)`) while
`exchange_code_for_token` overwrites it with `None`
(`token_data.get("refresh_token")`); both set
`token_expires_at = now + token_data.get("expires_in", 3600)`. -/
theorem refresh_keeps_exchange_drops_refresh_token (s : TokenState) (now : Nat)
    (td : TokenPayload) (hr : td.refresh_token = none)
    (ht : pyTruthy s.refresh_token = true) :
    (refresh_access_token s now (some (200, td))).2.refresh_token = s.refresh_token
    ∧ (refresh_access_token s now (some (200, td))).1 = true
    ∧ (exchange_code_for_token s now (some (200, td))).2.refresh_token = none
    ∧ (refresh_access_token s now (some (200, td))).2.token_expires_at
        = some (now + td.expires_in.getD 3600)
    ∧ (exchange_code_for_token s now (some (200, td))).2.token_expires_at
        = some (now + td.expires_in.getD 3600) := by
  simp [refresh_access_token, exchange_code_for_token, ht, hr]

/-- C9 witness: concrete refresh with a body that omits `refresh_token`
and `expires_in` keeps `some "r"` and defaults the expiry to 3600. -/
theorem refresh_keeps_exchange_drops_refresh_token_witness :
    (refresh_access_token ⟨some "old", some "r", some 1⟩ 50
        (some (200, ⟨some "new", none, none⟩))).2.refresh_token = some "r" :=
  (refresh_keeps_exchange_drops_refresh_token ⟨some "old", some "r", some 1⟩ 50
      ⟨some "new", none, none⟩ rfl (by decide)).1

/-! ## C10 — sync preserves the order of the remaining queue -/

/-- C10: when cloud sync is available, the queue after `sync_with_cloud`
is exactly the original queue filtered to the operations whose sync did
not succeed — so the survivors keep their original relative order, and an
operation whose type is not `inventory_update`/`employee_add`/`payment_add`
(for which `sync_operation` is false) is never removed; when cloud sync is
unavailable the state is untouched. -/
theorem sync_with_cloud_filters_queue (s : OfflineState) (httpOk : PendingOp → Bool)
    (now : Nat) :
    (is_cloud_sync_available s = true →
      (sync_with_cloud s httpOk now).pending_sync_operations
        = s.pending_sync_operations.filter (fun op => !(sync_operation httpOk op)))
    ∧ (is_cloud_sync_available s = false → sync_with_cloud s httpOk now = s) := by
  constructor
  · intro h
    simp [sync_with_cloud, h, syncLoop_self]
  · intro h
    simp [sync_with_cloud, h]

/-- C10 witness: with every POST succeeding, the syncable operation is
removed and the unknown-typed operation survives. -/
theorem sync_with_cloud_filters_queue_witness :
    (sync_with_cloud sCloud0 httpOkAll 7).pending_sync_operations
      = sCloud0.pending_sync_operations.filter (fun op => !(sync_operation httpOkAll op)) :=
  (sync_with_cloud_filters_queue sCloud0 httpOkAll 7).1 (by decide)

/-! ## C4 — template rendering -/

set_option maxRecDepth 100000

lemma template_render_spec (tpl : EmailTemplate)
    (hp1 : (scanLit tpl.subject.data).isSome = true)
    (hp2 : (scanLit tpl.body.data).isSome = true)
    (hl1 : litsOk ((scanLit tpl.subject.data).getD []) = true)
    (hl2 : litsOk ((scanLit tpl.body.data).getD []) = true)
    (m : String → Option (List Char)) :
    (completeFor m (templateFields tpl) = true →
      ∃ subjOut bodyOut,
        renderFmt tpl.subject m = .ok subjOut ∧ renderFmt tpl.body m = .ok bodyOut
        ∧ braceFree subjOut = true ∧ braceFree bodyOut = true)
    ∧ (missingFor m (templateFields tpl) = true →
      ∃ f, (renderFmt tpl.subject m = .error f ∨ renderFmt tpl.body m = .error f)
        ∧ m f = none) := by
  obtain ⟨cs1, hc1⟩ := Option.isSome_iff_exists.mp hp1
  obtain ⟨cs2, hc2⟩ := Option.isSome_iff_exists.mp hp2
  rw [hc1, Option.getD_some] at hl1
  rw [hc2, Option.getD_some] at hl2
  constructor
  · intro hc
    have hc' := completeFor_spec hc
    have hcs : ∀ f ∈ fmtFields tpl.subject, ∃ v, m f = some v ∧ braceFree v = true :=
      fun f hf => hc' f (by unfold templateFields; exact List.mem_append_left _ hf)
    have hcb : ∀ f ∈ fmtFields tpl.body, ∃ v, m f = some v ∧ braceFree v = true :=
      fun f hf => hc' f (by unfold templateFields; exact List.mem_append_right _ hf)
    obtain ⟨so, hso, hbs⟩ := renderFmt_ok tpl.subject m cs1 hc1 hl1 hcs
    obtain ⟨bo, hbo, hbb⟩ := renderFmt_ok tpl.body m cs2 hc2 hl2 hcb
    exact ⟨so, bo, hso, hbo, hbs, hbb⟩
  · intro hm
    obtain ⟨f, hf, hmf⟩ := missingFor_spec hm
    unfold templateFields at hf
    rcases List.mem_append.mp hf with hs | hb
    · obtain ⟨g, hg, hmg⟩ := renderFmt_missing tpl.subject m cs1 hc1 f hs hmf
      exact ⟨g, Or.inl hg, hmg⟩
    · obtain ⟨g, hg, hmg⟩ := renderFmt_missing tpl.body m cs2 hc2 f hb hmf
      exact ⟨g, Or.inr hg, hmg⟩

/-- C4: for each of the three template kinds, a mapping that supplies a
(brace-free) value for every required field renders subject and body
successfully with no brace character — hence no `{placeholder}` literal —
left in either output; and a mapping lacking any required field makes the
rendering fail with the missing-field error (Python's `KeyError`) instead
of emitting the literal placeholder. -/
theorem templates_render_complete_or_missing_field :
    ∀ tpl ∈ [low_stock_template, payment_reminder_template, task_assignment_template],
    ∀ m : String → Option (List Char),
      (completeFor m (templateFields tpl) = true →
        ∃ subjOut bodyOut,
          renderFmt tpl.subject m = .ok subjOut ∧ renderFmt tpl.body m = .ok bodyOut
          ∧ braceFree subjOut = true ∧ braceFree bodyOut = true)
      ∧ (missingFor m (templateFields tpl) = true →
        ∃ f, (renderFmt tpl.subject m = .error f ∨ renderFmt tpl.body m = .error f)
          ∧ m f = none) := by
  intro tpl htpl m
  simp only [List.mem_cons, List.mem_singleton, List.not_mem_nil, or_false] at htpl
  rcases htpl with h | h | h
  all_goals subst h
  · exact template_render_spec low_stock_template
      (by decide) (by decide) (by decide) (by decide) m
  · exact template_render_spec payment_reminder_template
      (by decide) (by decide) (by decide) (by decide) m
  · exact template_render_spec task_assignment_template
      (by decide) (by decide) (by decide) (by decide) m

/-- A complete field mapping for the `low_stock` template. -/
def lowStockFieldsMap : String → Option (List Char) :=
  fun f =>
    if f ∈ ["product_name", "sku", "current_quantity", "minimum_quantity", "reorder_quantity"]
    then some ("7" : String).data else none

/-- The same mapping with the `sku` field removed. -/
def lowStockMissingMap : String → Option (List Char) :=
  fun f => if f = "sku" then none else lowStockFieldsMap f

/-- C4 witness: concrete complete rendering of `low_stock` succeeds
brace-free, and dropping `sku` makes it fail with a missing field. -/
theorem templates_render_complete_or_missing_field_witness :
    (∃ subjOut bodyOut,
      renderFmt low_stock_template.subject lowStockFieldsMap = .ok subjOut
      ∧ renderFmt low_stock_template.body lowStockFieldsMap = .ok bodyOut
      ∧ braceFree subjOut = true ∧ braceFree bodyOut = true)
    ∧ (∃ f, (renderFmt low_stock_template.subject lowStockMissingMap = .error f
        ∨ renderFmt low_stock_template.body lowStockMissingMap = .error f)
      ∧ lowStockMissingMap f = none) :=
  ⟨(templates_render_complete_or_missing_field low_stock_template
      (List.mem_cons_self _ _) lowStockFieldsMap).1 (by decide),
   (templates_render_complete_or_missing_field low_stock_template
      (List.mem_cons_self _ _) lowStockMissingMap).2 (by decide)⟩
